import Mathlib

/-!
Shallow embedding of the core of `08-esp-idf-specific/Core_Pinned/main/Core_Pinned.c`:
the microsecond-resolution fixed-rate period timer (`delay_until_us`), the jitter
statistics tracker (`period_stats_t`, `stats_init`, `stats_update`,
`stats_report_and_clear`), the control/DAQ/communication loop structure, and the
cross-core bounded queue the control loop feeds.

Conventions of the embedding:
* `int64_t` timestamps and periods are modelled as `Int` (the program never comes
  near the 2^63 boundary; no arithmetic in the source relies on 64-bit wraparound).
* `uint32_t` counters (`count`, `seq`, the tick argument of `vTaskDelay`) wrap
  modulo `2^32`, written explicitly.
* `double` accumulators are modelled as `ℚ`: every claim under study is about the
  structure of the computation (what is accumulated, reset, emitted), not about
  floating-point rounding.
* The clock (`esp_timer_get_time`) is supplied to each function as an explicit
  argument; a loop receives a schedule `Nat → Int` of clock readings.
* Effects on the outside world (queue operations, watchdog calls, sleeps) are
  returned as data so that theorems can talk about them.
-/

namespace CorePinned

/-- Modulus of the C type `uint32_t`. -/
def UINT32_MOD : Nat := 2 ^ 32

/-- `CTRL_HZ` from the source: target frequency of the control loop. -/
def CTRL_HZ : Int := 1000

/-- `DAQ_HZ` from the source: target frequency of the data-acquisition loop. -/
def DAQ_HZ : Int := 500

/-- `CTRL_PERIOD_US = 1000000 / CTRL_HZ` from the source. -/
def CTRL_PERIOD_US : Int := 1000000 / CTRL_HZ

/-- `DAQ_PERIOD_US = 1000000 / DAQ_HZ` from the source. -/
def DAQ_PERIOD_US : Int := 1000000 / DAQ_HZ

/-- `REPORT_MS` from the source: reporting interval in milliseconds. -/
def REPORT_MS : Int := 1000

/-- Capacity of the queue created by `xQueueCreate(32, sizeof(ctrl_msg_t))`. -/
def QUEUE_CAPACITY : Nat := 32

/-- The FreeRTOS macro `pdMS_TO_TICKS`: milliseconds to scheduler ticks, computed
in `TickType_t` (`uint32_t`) arithmetic. The tick rate `configTICK_RATE_HZ` is a
build-time configuration value, so it is a parameter here. -/
def pdMS_TO_TICKS (tick_rate_hz ms : Nat) : Nat :=
  (ms * tick_rate_hz % UINT32_MOD) / 1000

/-- `period_stats_t` from the source: per-activity jitter statistics.
`err_abs_sum_us` and `err_abs_max_us` are C `double`s, modelled as exact
rationals; `count` is `uint32_t`. -/
structure period_stats_t where
  prev_tick_us : Int
  target_period_us : Int
  err_abs_sum_us : ℚ
  err_abs_max_us : ℚ
  count : Nat
deriving DecidableEq, Repr

/-- `stats_init` from the source: zero every field, then store the target period. -/
def stats_init (period_us : Int) : period_stats_t :=
  { prev_tick_us := 0
    target_period_us := period_us
    err_abs_sum_us := 0
    err_abs_max_us := 0
    count := 0 }

/-- `stats_update` from the source. A zero `prev_tick_us` means no baseline has
been recorded yet: the first call stores `now_us` and returns. Subsequent calls
accumulate the absolute deviation of the inter-tick interval from the target
period and increment the (wrapping) sample counter. -/
def stats_update (s : period_stats_t) (now_us : Int) : period_stats_t :=
  if s.prev_tick_us = 0 then
    { s with prev_tick_us := now_us }
  else
    let dt : Int := now_us - s.prev_tick_us
    let err : ℚ := (dt : ℚ) - (s.target_period_us : ℚ)
    let aerr : ℚ := |err|
    { prev_tick_us := now_us
      target_period_us := s.target_period_us
      err_abs_sum_us := s.err_abs_sum_us + aerr
      err_abs_max_us := if aerr > s.err_abs_max_us then aerr else s.err_abs_max_us
      count := (s.count + 1) % UINT32_MOD }

/-- The summary record emitted by `stats_report_and_clear` (the arguments of its
`ESP_LOGI` line, format string aside). -/
structure stats_report where
  hz : ℚ
  jitter_pct : ℚ
  max_jitter_pct : ℚ
deriving DecidableEq, Repr

/-- `stats_report_and_clear` from the source. It takes the statistics by `const`
pointer, so it never mutates them; its observable output is the log record, or
nothing when `count == 0` (the early return guards every division). The reset
that its name promises is performed by the caller, which follows it with
`stats_init` (see `report_boundary`). -/
def stats_report_and_clear (s : period_stats_t) : Option stats_report :=
  if s.count = 0 then none
  else
    let avg_abs_err : ℚ := s.err_abs_sum_us / (s.count : ℚ)
    some
      { hz := 1000000 / (s.target_period_us : ℚ)
        jitter_pct := avg_abs_err / (s.target_period_us : ℚ) * 100
        max_jitter_pct := s.err_abs_max_us / (s.target_period_us : ℚ) * 100 }

/-- The reporting boundary as written in `control_task_core0` (lines 192-196) and
`daq_task_core0` (lines 227-231): report, then re-initialize the statistics with
the loop's period constant. -/
def report_boundary (period_us : Int) (s : period_stats_t) :
    Option stats_report × period_stats_t :=
  (stats_report_and_clear s, stats_init period_us)

/-- Observable outcome of one call to `delay_until_us`: the updated deadline
(the value written back through `next_deadline_us`), the tick count passed to
`vTaskDelay` when it was invoked, whether `taskYIELD` ran, and whether the call
returned at the early `wait_us <= 0` exit. -/
structure delay_result where
  next_deadline_us : Int
  slept_ticks : Option Nat
  yielded : Bool
  returned_early : Bool
deriving DecidableEq, Repr

/-- `delay_until_us` from the source. `now` is the `esp_timer_get_time()` read at
entry and `now2` the second read before the sub-millisecond compensation. The
deadline is lazily initialized to `now + period_us` when it is still `0`, and
advanced by exactly `period_us` otherwise. A non-positive wait returns
immediately. For a wait of at least 1000 µs, the millisecond part is converted
with `pdMS_TO_TICKS` (the C cast to `uint32_t` is the `% UINT32_MOD`) and passed
to `vTaskDelay` only when strictly positive. -/
def delay_until_us (tick_rate_hz : Nat) (next_deadline_us period_us now now2 : Int) :
    delay_result :=
  let d : Int := if next_deadline_us = 0 then now + period_us else next_deadline_us + period_us
  let wait_us : Int := d - now
  if wait_us ≤ 0 then
    { next_deadline_us := d, slept_ticks := none, yielded := false, returned_early := true }
  else
    let slept : Option Nat :=
      if 1000 ≤ wait_us then
        let dly := pdMS_TO_TICKS tick_rate_hz ((wait_us / 1000).toNat % UINT32_MOD)
        if 0 < dly then some dly else none
      else none
    let remain : Int := d - now2
    { next_deadline_us := d
      slept_ticks := slept
      yielded := decide (0 < remain ∧ remain < 1000)
      returned_early := false }

/-- The sequence of stored deadlines produced by repeated calls to
`delay_until_us` from a loop that starts with `next_deadline_us = 0`, under a
schedule `nows`/`nows2` of clock readings (`nows n` is the entry-time clock of
call `n`, zero-based). `deadline_seq ... n` is the stored deadline after `n`
calls. -/
def deadline_seq (tick_rate_hz : Nat) (period_us : Int) (nows nows2 : Nat → Int) :
    Nat → Int
  | 0 => 0
  | n + 1 =>
    (delay_until_us tick_rate_hz (deadline_seq tick_rate_hz period_us nows nows2 n)
      period_us (nows n) (nows2 n)).next_deadline_us

/-- Iterated `stats_update` from a given state: `on_tick_run s times n` is the
state after `n` calls with timestamps `times 0, …, times (n-1)`. -/
def on_tick_run (s : period_stats_t) (times : Nat → Int) : Nat → period_stats_t
  | 0 => s
  | n + 1 => stats_update (on_tick_run s times n) (times n)

/-- `ctrl_msg_t` from the source: the message the control loop enqueues for the
communication loop. `seq` is `uint32_t`; the `float` payload is a rational. -/
structure ctrl_msg_t where
  t_send_us : Int
  seq : Nat
  ctrl_output : ℚ
deriving DecidableEq, Repr

/-- The dummy control workload `do_control_compute` from the source. Its value is
a `float` accumulation that no claim depends on; the data-dependent part,
`(k & 0x7) * 0.01f`, is kept exactly and the data-independent 200-term float sum
is taken at its mathematical value contribution of zero terms omitted, since only
the message's `seq` and `t_send_us` fields are ever inspected downstream. -/
def do_control_compute (k : Nat) : ℚ :=
  ((k % 8 : Nat) : ℚ) / 100

/-- Modelled from the spec: the FreeRTOS queue `xQueueSend(q, &msg, 0)` with a
zero block time — the queue implementation itself is not part of this
repository's sources, only its call sites are. Per the spec (§4.3) the channel
has fixed capacity, FIFO order, and a drop-policy send fails fast when full:
with free capacity the message is appended at the tail and the send succeeds
(`pdPASS`); on a full queue the send returns a distinguishable failure
immediately and the queue is unchanged. -/
def xQueueSend_drop (q : List ctrl_msg_t) (m : ctrl_msg_t) : Bool × List ctrl_msg_t :=
  if q.length < QUEUE_CAPACITY then (true, q ++ [m]) else (false, q)

/-- Modelled from the spec: the FreeRTOS receive `xQueueReceive` — the queue
implementation is not part of this repository's sources. Per the spec (§4.3), a
receive removes and returns the head of the FIFO, or yields an empty result when
nothing arrives within the timeout (modelled as the queue being empty). -/
def xQueueReceive_head (q : List ctrl_msg_t) : Option (ctrl_msg_t × List ctrl_msg_t) :=
  match q with
  | [] => none
  | m :: rest => some (m, rest)

/-- Receiving `k` times through `xQueueReceive_head`: the list of messages the
receiver obtains, in the order it obtains them (an empty receive contributes
nothing and leaves nothing behind to receive). -/
def receive_n : Nat → List ctrl_msg_t → List ctrl_msg_t
  | 0, _ => []
  | k + 1, q =>
    match xQueueReceive_head q with
    | none => []
    | some (m, q') => m :: receive_n k q'

/-- The per-iteration state of `control_task_core0`: its jitter statistics, the
stored deadline, the last report time, the sequence counter, and the queue it
sends into (`q_ctrl_to_comm`). -/
structure ctrl_state where
  stats : period_stats_t
  next_deadline_us : Int
  last_report_time : Int
  seq : Nat
  queue : List ctrl_msg_t
deriving DecidableEq, Repr

/-- Observable outcome of one iteration of the control loop: the successor
state, whether the queue send failed (the `ESP_LOGW` warning path), the report
emitted at a reporting boundary (if any), and the sleep the period timer issued. -/
structure ctrl_cycle_result where
  state : ctrl_state
  send_failed : Bool
  report : Option stats_report
  slept_ticks : Option Nat
deriving DecidableEq, Repr

/-- One iteration of the `while (1)` body of `control_task_core0`, lines 171-202
of the source, in source order: read `start_time`, compute the control output,
build the message with the current sequence number and post-increment the
counter, drop-policy send (warn on failure), read `end_time` and update the
jitter statistics, report-and-reinit when a full reporting interval elapsed,
reset the watchdog (an effect, see `control_iteration_effects`), then
`delay_until_us`. The clock readings of the iteration are explicit arguments. -/
def control_cycle (tick_rate_hz : Nat) (st : ctrl_state)
    (start_time end_time dnow dnow2 : Int) : ctrl_cycle_result :=
  let message : ctrl_msg_t :=
    { t_send_us := start_time, seq := st.seq, ctrl_output := do_control_compute st.seq }
  let seq' := (st.seq + 1) % UINT32_MOD
  let sent := xQueueSend_drop st.queue message
  let stats1 := stats_update st.stats end_time
  let boundary := REPORT_MS * 1000 ≤ end_time - st.last_report_time
  let rep := if boundary then stats_report_and_clear stats1 else none
  let stats2 := if boundary then stats_init CTRL_PERIOD_US else stats1
  let last' := if boundary then end_time else st.last_report_time
  let dres := delay_until_us tick_rate_hz st.next_deadline_us CTRL_PERIOD_US dnow dnow2
  { state :=
      { stats := stats2
        next_deadline_us := dres.next_deadline_us
        last_report_time := last'
        seq := seq'
        queue := sent.2 }
    send_failed := !sent.1
    report := rep
    slept_ticks := dres.slept_ticks }

/-- The initial state of `control_task_core0` before its first iteration:
statistics freshly initialized with `CTRL_PERIOD_US`, deadline `0`, sequence
number `0`, and an initial clock reading for `last_report_time`. The queue is
empty at creation (`xQueueCreate`). -/
def ctrl_init (t0 : Int) : ctrl_state :=
  { stats := stats_init CTRL_PERIOD_US
    next_deadline_us := 0
    last_report_time := t0
    seq := 0
    queue := [] }

/-- `n` iterations of the control loop under clock schedules `startt`, `endt`,
`dnow`, `dnow2` (each `Nat → Int`, indexed by iteration). -/
def control_run (tick_rate_hz : Nat) (st : ctrl_state)
    (startt endt dnow dnow2 : Nat → Int) : Nat → ctrl_state
  | 0 => st
  | n + 1 =>
    (control_cycle tick_rate_hz (control_run tick_rate_hz st startt endt dnow dnow2 n)
      (startt n) (endt n) (dnow n) (dnow2 n)).state

/-- The channel and watchdog operations a task can perform; the alphabet of the
effect traces below. -/
inductive effect where
  | wdt_add
  | wdt_reset
  | wdt_delete
  | queue_send
  | queue_receive
deriving DecidableEq, Repr

/-- Channel/watchdog effects `control_task_core0` performs before entering its
loop: the single `esp_task_wdt_add(NULL)` at line 169. -/
def control_startup_effects : List effect := [effect.wdt_add]

/-- Channel/watchdog effects of one iteration of `control_task_core0`, in source
order: the `xQueueSend` at line 183 and the `esp_task_wdt_reset()` at line 199. -/
def control_iteration_effects : List effect := [effect.queue_send, effect.wdt_reset]

/-- Channel/watchdog effects `daq_task_core0` performs before entering its loop:
none — the acquisition task never registers with the watchdog. -/
def daq_startup_effects : List effect := []

/-- Channel/watchdog effects of one iteration of `daq_task_core0` (lines
220-234): none — the body only samples, updates its own statistics, reports, and
calls `delay_until_us`; it touches neither the queue nor the watchdog. -/
def daq_iteration_effects : List effect := []

/-- Channel/watchdog effects `comm_task_core1` performs before entering its
loop: the single `esp_task_wdt_add(NULL)` at line 247. -/
def comm_startup_effects : List effect := [effect.wdt_add]

/-- Channel/watchdog effects of one iteration of `comm_task_core1`, in source
order: the `xQueueReceive` at line 251 and the `esp_task_wdt_reset()` at
line 279. -/
def comm_iteration_effects : List effect := [effect.queue_receive, effect.wdt_reset]

/-- Channel/watchdog effects of `background_task`: none at startup. -/
def background_startup_effects : List effect := []

/-- Channel/watchdog effects of one iteration of `background_task` (lines
290-297): none. -/
def background_iteration_effects : List effect := []

/-- The effect trace of a task that performs `startup` once and then `n`
iterations each performing `iter`. -/
def task_trace (startup iter : List effect) (n : Nat) : List effect :=
  startup ++ (List.replicate n iter).flatten

/-! ## Helper lemmas -/

/-- Both exits of `delay_until_us` store the same updated deadline: the lazy
initialization `now + period` when the stored deadline is `0`, and an
unconditional advance by `period` otherwise. -/
lemma delay_until_us_deadline (tick_rate_hz : Nat) (d P now now2 : Int) :
    (delay_until_us tick_rate_hz d P now now2).next_deadline_us =
      if d = 0 then now + P else d + P := by
  unfold delay_until_us
  dsimp only
  split <;> split <;> rfl

/-- Closed form of the deadline sequence: with a positive period and a
nonnegative first clock reading, the deadline after `N + 1` calls is
`nows 0 + (N + 1) · P`, independently of every later clock reading. -/
lemma deadline_seq_closed (tick_rate_hz : Nat) (P : Int) (nows nows2 : Nat → Int)
    (hP : 0 < P) (h0 : 0 ≤ nows 0) :
    ∀ N : Nat, deadline_seq tick_rate_hz P nows nows2 (N + 1) =
      nows 0 + ((N + 1 : Nat) : Int) * P := by
  intro N
  induction N with
  | zero =>
    show (delay_until_us tick_rate_hz (deadline_seq tick_rate_hz P nows nows2 0)
        P (nows 0) (nows2 0)).next_deadline_us = _
    rw [show deadline_seq tick_rate_hz P nows nows2 0 = 0 from rfl,
      delay_until_us_deadline, if_pos rfl]
    push_cast
    ring
  | succ n ih =>
    show (delay_until_us tick_rate_hz (deadline_seq tick_rate_hz P nows nows2 (n + 1))
        P (nows (n + 1)) (nows2 (n + 1))).next_deadline_us = _
    rw [delay_until_us_deadline, ih]
    have hpos : (0 : Int) < ((n + 1 : Nat) : Int) * P := by
      have : (0 : Int) < ((n + 1 : Nat) : Int) := by exact_mod_cast Nat.succ_pos n
      exact mul_pos this hP
    rw [if_neg (by linarith)]
    push_cast
    ring

/-! ## Claims about the period timer -/

/-- C1: drift-free fixed-rate scheduling. For every period `P > 0`, the first
call to `delay_until_us` sets the deadline to `now + P`, every subsequent call
advances the stored deadline by exactly `P` (never recomputed from the current
time — the clock readings `nows 1, nows 2, …` do not appear in the result), so
after `N ≥ 1` calls the deadline is exactly `start + N·P`. The statement needs
no overrun hypothesis: the advance is unconditional. -/
theorem drift_free_fixed_rate (tick_rate_hz : Nat) (period_us : Int)
    (nows nows2 : Nat → Int) (hP : 0 < period_us) (h0 : 0 ≤ nows 0) :
    deadline_seq tick_rate_hz period_us nows nows2 1 = nows 0 + period_us ∧
    (∀ N : Nat, 1 ≤ N →
      deadline_seq tick_rate_hz period_us nows nows2 (N + 1) =
        deadline_seq tick_rate_hz period_us nows nows2 N + period_us) ∧
    (∀ N : Nat, 1 ≤ N →
      deadline_seq tick_rate_hz period_us nows nows2 N =
        nows 0 + (N : Int) * period_us) := by
  have hclosed := deadline_seq_closed tick_rate_hz period_us nows nows2 hP h0
  refine ⟨?_, ?_, ?_⟩
  · have := hclosed 0
    push_cast at this
    linarith
  · intro N hN
    cases N with
    | zero => exact absurd hN (by norm_num)
    | succ m =>
      rw [hclosed (m + 1), hclosed m]
      push_cast
      ring
  · intro N hN
    cases N with
    | zero => exact absurd hN (by norm_num)
    | succ m =>
      rw [hclosed m]

/-- Witness for C1 at a concrete input: period 1000 µs, first clock reading 5,
three calls; the deadline is `5 + 3·1000 = 3005`. -/
theorem drift_free_fixed_rate_witness :
    deadline_seq 100 1000 (fun _ => 5) (fun _ => 5) 3 = 5 + (3 : Int) * 1000 := by
  exact (drift_free_fixed_rate 100 1000 (fun _ => 5) (fun _ => 5)
    (by norm_num) (by norm_num)).2.2 3 (by norm_num)

/-- C9: deadline positivity invariant. With a positive period and nonnegative
clock readings, the stored deadline is strictly positive after every call; since
`0` encodes "no deadline yet", the lazy-initialization branch runs at most once,
and every later call advances the deadline by exactly the period. -/
theorem deadline_positive_invariant (tick_rate_hz : Nat) (period_us : Int)
    (nows nows2 : Nat → Int) (hP : 0 < period_us) (hnn : ∀ i, 0 ≤ nows i) :
    ∀ N : Nat, 1 ≤ N →
      0 < deadline_seq tick_rate_hz period_us nows nows2 N ∧
      deadline_seq tick_rate_hz period_us nows nows2 (N + 1) =
        deadline_seq tick_rate_hz period_us nows nows2 N + period_us := by
  have hclosed := deadline_seq_closed tick_rate_hz period_us nows nows2 hP (hnn 0)
  intro N hN
  cases N with
  | zero => exact absurd hN (by norm_num)
  | succ m =>
    constructor
    · rw [hclosed m]
      have hpos : (0 : Int) < ((m + 1 : Nat) : Int) * period_us := by
        have : (0 : Int) < ((m + 1 : Nat) : Int) := by exact_mod_cast Nat.succ_pos m
        exact mul_pos this hP
      have := hnn 0
      linarith
    · rw [hclosed (m + 1), hclosed m]
      push_cast
      ring

/-- Witness for C9 at a concrete input: period 2000 µs, all clock readings 7,
after the second call the deadline `7 + 2·2000` is positive and the third call
advances it by 2000. -/
theorem deadline_positive_invariant_witness :
    0 < deadline_seq 100 2000 (fun _ => 7) (fun _ => 7) 2 ∧
    deadline_seq 100 2000 (fun _ => 7) (fun _ => 7) 3 =
      deadline_seq 100 2000 (fun _ => 7) (fun _ => 7) 2 + 2000 := by
  exact deadline_positive_invariant 100 2000 (fun _ => 7) (fun _ => 7)
    (by norm_num) (fun i => by norm_num) 2 (by norm_num)

/-- C2: overrun absorption without negative sleep. If the computed wait
`deadline − now` is non-positive, `delay_until_us` returns at the early exit:
no sleep is issued, no yield happens, no error is signalled. And whenever a tick
count is passed to the sleep primitive (`vTaskDelay`), it is strictly positive —
the `dly > 0` guard makes a zero or negative sleep argument impossible. -/
theorem overrun_absorbed_no_negative_sleep (tick_rate_hz : Nat) (d P now now2 : Int) :
    ((if d = 0 then now + P else d + P) - now ≤ 0 →
      (delay_until_us tick_rate_hz d P now now2).returned_early = true ∧
      (delay_until_us tick_rate_hz d P now now2).slept_ticks = none ∧
      (delay_until_us tick_rate_hz d P now now2).yielded = false) ∧
    (∀ t : Nat, (delay_until_us tick_rate_hz d P now now2).slept_ticks = some t → 0 < t) := by
  unfold delay_until_us
  by_cases hw : (if d = 0 then now + P else d + P) - now ≤ 0
  · rw [if_pos hw]
    exact ⟨fun _ => ⟨rfl, rfl, rfl⟩, fun t ht => by cases ht⟩
  · rw [if_neg hw]
    refine ⟨fun h => absurd h hw, fun t ht => ?_⟩
    simp only at ht
    by_cases h1000 : 1000 ≤ (if d = 0 then now + P else d + P) - now
    · rw [if_pos h1000] at ht
      by_cases hdly : 0 < pdMS_TO_TICKS tick_rate_hz
          ((((if d = 0 then now + P else d + P) - now) / 1000).toNat % UINT32_MOD)
      · rw [if_pos hdly] at ht
        cases ht
        exact hdly
      · rw [if_neg hdly] at ht
        cases ht
    · rw [if_neg h1000] at ht
      cases ht

/-- Witness for C2 at a concrete input: deadline 100, period 1000, now 5000 —
the wait `1100 − 5000` is negative, so the call returns early with no sleep and
no yield. -/
theorem overrun_absorbed_no_negative_sleep_witness :
    (delay_until_us 100 100 1000 5000 5000).returned_early = true ∧
    (delay_until_us 100 100 1000 5000 5000).slept_ticks = none ∧
    (delay_until_us 100 100 1000 5000 5000).yielded = false := by
  exact (overrun_absorbed_no_negative_sleep 100 100 1000 5000 5000).1 (by norm_num)

/-! ## Claims about the jitter tracker -/

/-- C4: reporting on zero samples is a no-op. With `count == 0`,
`stats_report_and_clear` takes the early return: no summary record is emitted
and neither division (`/ count`, `/ target_period`) is reached. The statistics
are untouched by construction: the C function receives them through a `const`
pointer, which the embedding reflects by not returning a state at all. -/
theorem zero_sample_report_noop (s : period_stats_t) (h : s.count = 0) :
    stats_report_and_clear s = none := by
  unfold stats_report_and_clear
  rw [if_pos h]

/-- Witness for C4 at a concrete input: a freshly initialized tracker has
`count = 0` and reporting it emits nothing. -/
theorem zero_sample_report_noop_witness :
    stats_report_and_clear (stats_init 1000) = none := by
  exact zero_sample_report_noop (stats_init 1000) rfl

/-- C10: timestamp-zero edge case. An unseeded tracker (`prev_tick_us = 0`)
ticked at timestamp `0` is left exactly as it was — still unseeded, the tick
indistinguishable from no tick — and, for nonnegative timestamps, the baseline
ends up seeded (nonzero) exactly when the timestamp is strictly positive. -/
theorem timestamp_zero_tick_invisible (s : period_stats_t) (now : Int)
    (hs : s.prev_tick_us = 0) (hnow : 0 ≤ now) :
    stats_update s 0 = s ∧
    ((stats_update s now).prev_tick_us ≠ 0 ↔ 0 < now) := by
  constructor
  · unfold stats_update
    rw [if_pos hs]
    cases s
    simp_all
  · unfold stats_update
    rw [if_pos hs]
    simp only
    omega

/-- Witness for C10 at a concrete input: the fresh tracker of period 1000 and
timestamp 7. -/
theorem timestamp_zero_tick_invisible_witness :
    stats_update (stats_init 1000) 0 = stats_init 1000 ∧
    ((stats_update (stats_init 1000) 7).prev_tick_us ≠ 0 ↔ (0 : Int) < 7) := by
  exact timestamp_zero_tick_invisible (stats_init 1000) 7 rfl (by norm_num)

/-- With strictly positive timestamps, after `N + 1` ticks from a fresh tracker
the baseline is the last timestamp and the (wrapping) sample counter holds
`N % 2^32`: the first tick only seeds the baseline, every later tick counts. -/
lemma on_tick_run_prev_count (P : Int) (times : Nat → Int) (hpos : ∀ i, 0 < times i) :
    ∀ N : Nat,
      (on_tick_run (stats_init P) times (N + 1)).prev_tick_us = times N ∧
      (on_tick_run (stats_init P) times (N + 1)).count = N % UINT32_MOD := by
  intro N
  induction N with
  | zero =>
    show (stats_update (stats_init P) (times 0)).prev_tick_us = times 0 ∧
      (stats_update (stats_init P) (times 0)).count = 0 % UINT32_MOD
    unfold stats_update stats_init
    simp
  | succ n ih =>
    obtain ⟨hprev, hcount⟩ := ih
    have hne : (on_tick_run (stats_init P) times (n + 1)).prev_tick_us ≠ 0 := by
      rw [hprev]
      exact (hpos n).ne'
    show (stats_update (on_tick_run (stats_init P) times (n + 1)) (times (n + 1))).prev_tick_us
        = times (n + 1) ∧
      (stats_update (on_tick_run (stats_init P) times (n + 1)) (times (n + 1))).count
        = (n + 1) % UINT32_MOD
    unfold stats_update
    rw [if_neg hne]
    refine ⟨rfl, ?_⟩
    show ((on_tick_run (stats_init P) times (n + 1)).count + 1) % UINT32_MOD
        = (n + 1) % UINT32_MOD
    rw [hcount]
    unfold UINT32_MOD
    omega

/-- C3 (amended): first-tick seeding with a wrapping counter. The first
`on_tick` after a reset records the timestamp as the baseline without counting
it or accumulating error, and after `N ≥ 1` calls with strictly positive
timestamps the sample count is `(N − 1) % 2^32` — equal to `N − 1` whenever
`N − 1 < 2^32`, since `count` is a `uint32_t` and wraps. -/
theorem first_tick_seeds_baseline (P : Int) (times : Nat → Int)
    (hpos : ∀ i, 0 < times i) :
    on_tick_run (stats_init P) times 1 =
      { prev_tick_us := times 0, target_period_us := P,
        err_abs_sum_us := 0, err_abs_max_us := 0, count := 0 } ∧
    ∀ N : Nat, 1 ≤ N →
      (on_tick_run (stats_init P) times N).count = (N - 1) % UINT32_MOD := by
  constructor
  · show stats_update (stats_init P) (times 0) = _
    unfold stats_update stats_init
    simp
  · intro N hN
    cases N with
    | zero => exact absurd hN (by norm_num)
    | succ m =>
      have h := (on_tick_run_prev_count P times hpos m).2
      simpa using h

/-- Witness for C3 (amended) at a concrete input: timestamps `1, 2, 3, …`, three
calls, sample count `(3 − 1) % 2^32 = 2`. -/
theorem first_tick_seeds_baseline_witness :
    (on_tick_run (stats_init 1000) (fun i => (i : Int) + 1) 3).count
      = (3 - 1) % UINT32_MOD := by
  exact (first_tick_seeds_baseline 1000 (fun i => (i : Int) + 1)
    (fun i => by positivity)).2 3 (by norm_num)

/-- C3 counterexample: the sample counter is a `uint32_t` and wraps, so after
`2^32 + 1` ticks with timestamps `1, 2, 3, …` (strictly positive and
increasing) the count is `2^32 % 2^32 = 0`, not `N − 1 = 2^32` as the claim, as
stated for every `N ≥ 1`, would require. -/
theorem first_tick_sample_count_wraps :
    ¬ ((on_tick_run (stats_init 1000) (fun i => (i : Int) + 1) (2 ^ 32 + 1)).count
        = 2 ^ 32 + 1 - 1) := by
  have h := (on_tick_run_prev_count 1000 (fun i => (i : Int) + 1)
    (fun i => by positivity) (2 ^ 32)).2
  rw [h]
  unfold UINT32_MOD
  simp

/-- C5: atomic reset with the target preserved. The reporting boundary
(`stats_report_and_clear` followed by `stats_init` with the loop's period, as
written in the control and DAQ loops) zeroes the sample count, the cumulative
absolute error, the maximum absolute error, and the previous-tick baseline in
one step, and the target period afterwards equals the target period before.
Moreover `stats_update`, the only other mutator, never resets anything: it
keeps the target, never decreases the cumulative or maximum error, and either
leaves the count alone (seeding call) or bumps it by one (mod 2^32). -/
theorem reporting_boundary_atomic_reset (P : Int) (s : period_stats_t)
    (h : s.target_period_us = P) :
    ((report_boundary P s).2.count = 0 ∧
     (report_boundary P s).2.err_abs_sum_us = 0 ∧
     (report_boundary P s).2.err_abs_max_us = 0 ∧
     (report_boundary P s).2.prev_tick_us = 0 ∧
     (report_boundary P s).2.target_period_us = s.target_period_us) ∧
    ∀ now : Int,
      (stats_update s now).target_period_us = s.target_period_us ∧
      s.err_abs_sum_us ≤ (stats_update s now).err_abs_sum_us ∧
      s.err_abs_max_us ≤ (stats_update s now).err_abs_max_us ∧
      ((stats_update s now).count = s.count ∨
        (stats_update s now).count = (s.count + 1) % UINT32_MOD) := by
  constructor
  · exact ⟨rfl, rfl, rfl, rfl, by simp [report_boundary, stats_init, h]⟩
  · intro now
    unfold stats_update
    by_cases hp : s.prev_tick_us = 0
    · rw [if_pos hp]
      exact ⟨rfl, le_refl _, le_refl _, Or.inl rfl⟩
    · rw [if_neg hp]
      refine ⟨rfl, ?_, ?_, Or.inr rfl⟩
      · have := abs_nonneg (((now - s.prev_tick_us : Int) : ℚ) - (s.target_period_us : ℚ))
        dsimp only
        linarith
      · dsimp only
        split
        · linarith [le_of_lt (by assumption :
            s.err_abs_max_us < |((now - s.prev_tick_us : Int) : ℚ) - (s.target_period_us : ℚ)|)]
        · exact le_refl _

/-- Witness for C5 at a concrete input: a tracker seeded at timestamp 5, run
through the reporting boundary with its own period 1000, and one `stats_update`
at timestamp 9. -/
theorem reporting_boundary_atomic_reset_witness :
    ((report_boundary 1000 (stats_update (stats_init 1000) 5)).2.count = 0 ∧
     (report_boundary 1000 (stats_update (stats_init 1000) 5)).2.err_abs_sum_us = 0 ∧
     (report_boundary 1000 (stats_update (stats_init 1000) 5)).2.err_abs_max_us = 0 ∧
     (report_boundary 1000 (stats_update (stats_init 1000) 5)).2.prev_tick_us = 0 ∧
     (report_boundary 1000 (stats_update (stats_init 1000) 5)).2.target_period_us
       = (stats_update (stats_init 1000) 5).target_period_us) ∧
    ((stats_update (stats_update (stats_init 1000) 5) 9).target_period_us
       = (stats_update (stats_init 1000) 5).target_period_us ∧
     (stats_update (stats_init 1000) 5).err_abs_sum_us
       ≤ (stats_update (stats_update (stats_init 1000) 5) 9).err_abs_sum_us ∧
     (stats_update (stats_init 1000) 5).err_abs_max_us
       ≤ (stats_update (stats_update (stats_init 1000) 5) 9).err_abs_max_us ∧
     ((stats_update (stats_update (stats_init 1000) 5) 9).count
        = (stats_update (stats_init 1000) 5).count ∨
      (stats_update (stats_update (stats_init 1000) 5) 9).count
        = ((stats_update (stats_init 1000) 5).count + 1) % UINT32_MOD)) := by
  have h := reporting_boundary_atomic_reset 1000 (stats_update (stats_init 1000) 5) rfl
  exact ⟨h.1, h.2 9⟩

/-! ## Claims about the channel and the loop structure -/

/-- The queue field of a control-loop iteration is whatever the drop-policy
send of this cycle's message left behind. -/
lemma control_cycle_queue (tick_rate_hz : Nat) (st : ctrl_state)
    (start_time end_time dnow dnow2 : Int) :
    (control_cycle tick_rate_hz st start_time end_time dnow dnow2).state.queue =
      (xQueueSend_drop st.queue
        { t_send_us := start_time, seq := st.seq,
          ctrl_output := do_control_compute st.seq }).2 := rfl

/-- The send-failure flag of a control-loop iteration is the negation of the
success of this cycle's drop-policy send. -/
lemma control_cycle_send_failed (tick_rate_hz : Nat) (st : ctrl_state)
    (start_time end_time dnow dnow2 : Int) :
    (control_cycle tick_rate_hz st start_time end_time dnow dnow2).send_failed =
      !(xQueueSend_drop st.queue
        { t_send_us := start_time, seq := st.seq,
          ctrl_output := do_control_compute st.seq }).1 := rfl

/-- The sequence counter is post-incremented (mod 2^32) on every iteration,
whether or not the send succeeded. -/
lemma control_cycle_seq (tick_rate_hz : Nat) (st : ctrl_state)
    (start_time end_time dnow dnow2 : Int) :
    (control_cycle tick_rate_hz st start_time end_time dnow dnow2).state.seq =
      (st.seq + 1) % UINT32_MOD := rfl

/-- The deadline stored by a control-loop iteration is the one `delay_until_us`
computed for it. -/
lemma control_cycle_deadline (tick_rate_hz : Nat) (st : ctrl_state)
    (start_time end_time dnow dnow2 : Int) :
    (control_cycle tick_rate_hz st start_time end_time dnow dnow2).state.next_deadline_us =
      (delay_until_us tick_rate_hz st.next_deadline_us CTRL_PERIOD_US
        dnow dnow2).next_deadline_us := rfl

/-- C6: drop-policy send on a full channel. When the capacity-32 queue already
holds 32 messages, the zero-timeout send of the control loop fails (a result
distinguishable from success, with no blocking — the cycle is a total
function), the warning is logged (`send_failed` is the `ESP_LOGW` path), the
message is dropped, the queue is unchanged and still at capacity (never
exceeded), and the cycle continues: the sequence counter advances and the
period timer still runs. -/
theorem full_channel_send_drops (tick_rate_hz : Nat) (st : ctrl_state)
    (start_time end_time dnow dnow2 : Int) (h : st.queue.length = QUEUE_CAPACITY) :
    (control_cycle tick_rate_hz st start_time end_time dnow dnow2).send_failed = true ∧
    (control_cycle tick_rate_hz st start_time end_time dnow dnow2).state.queue = st.queue ∧
    (control_cycle tick_rate_hz st start_time end_time dnow dnow2).state.queue.length
      = QUEUE_CAPACITY ∧
    (control_cycle tick_rate_hz st start_time end_time dnow dnow2).state.seq
      = (st.seq + 1) % UINT32_MOD ∧
    (control_cycle tick_rate_hz st start_time end_time dnow dnow2).state.next_deadline_us
      = (delay_until_us tick_rate_hz st.next_deadline_us CTRL_PERIOD_US
          dnow dnow2).next_deadline_us := by
  have hsend : ∀ m : ctrl_msg_t, xQueueSend_drop st.queue m = (false, st.queue) := by
    intro m
    unfold xQueueSend_drop
    rw [h, if_neg (lt_irrefl QUEUE_CAPACITY)]
  refine ⟨?_, ?_, ?_, control_cycle_seq _ _ _ _ _ _, control_cycle_deadline _ _ _ _ _ _⟩
  · rw [control_cycle_send_failed, hsend]
    rfl
  · rw [control_cycle_queue, hsend]
  · rw [control_cycle_queue, hsend, h]

/-- A control-loop state whose queue is full: 32 identical messages. -/
def full_queue_state : ctrl_state :=
  { stats := stats_init 1000
    next_deadline_us := 0
    last_report_time := 0
    seq := 0
    queue := List.replicate 32 { t_send_us := 0, seq := 0, ctrl_output := 0 } }

/-- Witness for C6 at a concrete input: a state with 32 enqueued messages and
none received. -/
theorem full_channel_send_drops_witness :
    (control_cycle 100 full_queue_state 0 0 0 0).send_failed = true ∧
    (control_cycle 100 full_queue_state 0 0 0 0).state.queue = full_queue_state.queue ∧
    (control_cycle 100 full_queue_state 0 0 0 0).state.queue.length = QUEUE_CAPACITY ∧
    (control_cycle 100 full_queue_state 0 0 0 0).state.seq
      = (full_queue_state.seq + 1) % UINT32_MOD ∧
    (control_cycle 100 full_queue_state 0 0 0 0).state.next_deadline_us
      = (delay_until_us 100 full_queue_state.next_deadline_us CTRL_PERIOD_US
          0 0).next_deadline_us := by
  exact full_channel_send_drops 100 full_queue_state 0 0 0 0
    (by simp [full_queue_state, QUEUE_CAPACITY])

/-- Receiving `k` times takes the first `k` messages of the FIFO, in order. -/
lemma receive_n_eq_take : ∀ (k : Nat) (q : List ctrl_msg_t), receive_n k q = q.take k := by
  intro k
  induction k with
  | zero => intro q; rfl
  | succ m ih =>
    intro q
    cases q with
    | nil => rfl
    | cons a t => simp [receive_n, xQueueReceive_head, ih]

/-- Running `n ≤ 32` control-loop iterations from the initial state (empty
queue, sequence counter 0): every send succeeds, the queue holds the `n`
messages in send order — message `i` stamped with sequence number `i` and this
cycle's `start_time` — and the sequence counter stands at `n`. -/
lemma control_run_queue_seq (tick_rate_hz : Nat) (t0 : Int)
    (startt endt dnow dnow2 : Nat → Int) :
    ∀ n : Nat, n ≤ QUEUE_CAPACITY →
      (control_run tick_rate_hz (ctrl_init t0) startt endt dnow dnow2 n).queue =
        (List.range n).map (fun i =>
          { t_send_us := startt i, seq := i, ctrl_output := do_control_compute i }) ∧
      (control_run tick_rate_hz (ctrl_init t0) startt endt dnow dnow2 n).seq = n := by
  intro n
  induction n with
  | zero => intro _; exact ⟨rfl, rfl⟩
  | succ m ih =>
    intro hm
    obtain ⟨hq, hs⟩ := ih (Nat.le_of_succ_le hm)
    have hmlt : m < QUEUE_CAPACITY := Nat.lt_of_succ_le hm
    constructor
    · show (control_cycle tick_rate_hz
          (control_run tick_rate_hz (ctrl_init t0) startt endt dnow dnow2 m)
          (startt m) (endt m) (dnow m) (dnow2 m)).state.queue = _
      rw [control_cycle_queue, hq, hs]
      unfold xQueueSend_drop
      rw [if_pos (by simpa using hmlt)]
      simp [List.range_succ]
    · show (control_cycle tick_rate_hz
          (control_run tick_rate_hz (ctrl_init t0) startt endt dnow dnow2 m)
          (startt m) (endt m) (dnow m) (dnow2 m)).state.seq = _
      rw [control_cycle_seq, hs]
      have : m + 1 < UINT32_MOD := by
        have : QUEUE_CAPACITY < UINT32_MOD := by unfold QUEUE_CAPACITY UINT32_MOD; norm_num
        omega
      exact Nat.mod_eq_of_lt this

/-- C7: FIFO delivery with per-cycle sequence stamping. Every iteration advances
the sequence counter by one (mod 2^32); for `k ≤ 32` messages sent from the
initial state and then received, the receiver obtains exactly the sent list, in
send order, the stamped sequence numbers come out as `0, 1, …, k−1`, and none
is duplicated. -/
theorem fifo_in_order_delivery (tick_rate_hz : Nat) (t0 : Int)
    (startt endt dnow dnow2 : Nat → Int) (k : Nat) (hk : k ≤ QUEUE_CAPACITY) :
    receive_n k (control_run tick_rate_hz (ctrl_init t0) startt endt dnow dnow2 k).queue =
      (control_run tick_rate_hz (ctrl_init t0) startt endt dnow dnow2 k).queue ∧
    ((control_run tick_rate_hz (ctrl_init t0) startt endt dnow dnow2 k).queue).map
        (fun m => m.seq) = List.range k ∧
    (((control_run tick_rate_hz (ctrl_init t0) startt endt dnow dnow2 k).queue).map
        (fun m => m.seq)).Nodup ∧
    ∀ n : Nat,
      (control_run tick_rate_hz (ctrl_init t0) startt endt dnow dnow2 (n + 1)).seq =
        ((control_run tick_rate_hz (ctrl_init t0) startt endt dnow dnow2 n).seq + 1)
          % UINT32_MOD := by
  obtain ⟨hq, _⟩ := control_run_queue_seq tick_rate_hz t0 startt endt dnow dnow2 k hk
  have hmap : ((control_run tick_rate_hz (ctrl_init t0) startt endt dnow dnow2 k).queue).map
      (fun m => m.seq) = List.range k := by
    rw [hq, List.map_map]
    have hcomp : ((fun m : ctrl_msg_t => m.seq) ∘ (fun i : Nat =>
        ({ t_send_us := startt i, seq := i,
           ctrl_output := do_control_compute i } : ctrl_msg_t))) = fun i => i := rfl
    rw [hcomp, List.map_id']
  refine ⟨?_, hmap, ?_, ?_⟩
  · rw [receive_n_eq_take, hq]
    exact List.take_of_length_le (by simp)
  · rw [hmap]
    exact List.nodup_range k
  · intro n
    exact control_cycle_seq _ _ _ _ _ _

/-- Witness for C7 at a concrete input: two cycles from the initial state with
a concrete clock schedule; the two enqueued messages carry sequence numbers
`0, 1` in order. -/
theorem fifo_in_order_delivery_witness :
    receive_n 2 (control_run 100 (ctrl_init 0) (fun n => (n : Int) * 1000)
        (fun n => (n : Int) * 1000 + 50) (fun n => (n : Int) * 1000 + 60)
        (fun n => (n : Int) * 1000 + 900) 2).queue =
      (control_run 100 (ctrl_init 0) (fun n => (n : Int) * 1000)
        (fun n => (n : Int) * 1000 + 50) (fun n => (n : Int) * 1000 + 60)
        (fun n => (n : Int) * 1000 + 900) 2).queue ∧
    ((control_run 100 (ctrl_init 0) (fun n => (n : Int) * 1000)
        (fun n => (n : Int) * 1000 + 50) (fun n => (n : Int) * 1000 + 60)
        (fun n => (n : Int) * 1000 + 900) 2).queue).map (fun m => m.seq)
      = List.range 2 := by
  have h := fifo_in_order_delivery 100 0 (fun n => (n : Int) * 1000)
    (fun n => (n : Int) * 1000 + 50) (fun n => (n : Int) * 1000 + 60)
    (fun n => (n : Int) * 1000 + 900) 2 (by norm_num [QUEUE_CAPACITY])
  exact ⟨h.1, h.2.1⟩

/-- Counting occurrences in a task trace: the startup effects once plus the
iteration effects once per iteration. -/
lemma task_trace_count (s it : List effect) (e : effect) :
    ∀ n : Nat, (task_trace s it n).count e = s.count e + n * it.count e := by
  intro n
  induction n with
  | zero => simp [task_trace]
  | succ m ih =>
    unfold task_trace at ih ⊢
    rw [List.replicate_succ, List.flatten_cons]
    simp only [List.count_append] at ih ⊢
    have hrest : ((List.replicate m it).flatten).count e = m * it.count e := by omega
    rw [hrest, Nat.succ_mul]
    ring

/-- A task with no startup effects and no per-iteration effects has the empty
trace at every iteration count. -/
lemma task_trace_nil : ∀ n : Nat, task_trace ([] : List effect) [] n = [] := by
  intro n
  induction n with
  | zero => rfl
  | succ m ih =>
    unfold task_trace at ih ⊢
    rw [List.replicate_succ, List.flatten_cons]
    simp only [List.nil_append] at ih ⊢
    exact ih

/-- C8: watchdog/channel asymmetry. For every iteration count `n`: the
acquisition loop and the background loop perform no channel operation and no
watchdog operation at all; the control loop and the communication loop each
register with the watchdog exactly once (at startup) and reset it exactly once
per iteration. -/
theorem watchdog_channel_asymmetry :
    (∀ n : Nat, task_trace daq_startup_effects daq_iteration_effects n = []) ∧
    (∀ n : Nat,
      task_trace background_startup_effects background_iteration_effects n = []) ∧
    (∀ n : Nat,
      (task_trace control_startup_effects control_iteration_effects n).count
          effect.wdt_add = 1 ∧
      (task_trace control_startup_effects control_iteration_effects n).count
          effect.wdt_reset = n ∧
      (task_trace comm_startup_effects comm_iteration_effects n).count
          effect.wdt_add = 1 ∧
      (task_trace comm_startup_effects comm_iteration_effects n).count
          effect.wdt_reset = n) := by
  refine ⟨fun n => task_trace_nil n, fun n => task_trace_nil n, fun n => ?_⟩
  refine ⟨?_, ?_, ?_, ?_⟩ <;>
    rw [task_trace_count] <;>
    simp [control_startup_effects, control_iteration_effects,
      comm_startup_effects, comm_iteration_effects, List.count_cons, List.count_nil]

end CorePinned
